import Mathlib

/-!
Verification development for the BillTrim desktop service supervisor
(the Electron main-process module).

The module launches a Python backend as a child process, decides readiness
from interleaved stdout/stderr markers, a debounced health probe and a 30
second startup deadline, supervises one automatic restart after a crash,
reclaims the backend port before each launch, builds the child environment,
and persists a license key.  Everything below is a shallow embedding of
that module: handlers become pure Lean functions over an explicit attempt /
session state, the event loop becomes a fold over an event list, and the
file system behind the license store becomes an `Option String`.
-/

set_option maxHeartbeats 1000000

/-! ## Strings: JS `String.prototype.includes` -/

/-- Boolean prefix test on character lists (`a` begins with `sub`). -/
def charsHavePre : List Char → List Char → Bool
  | [], _ => true
  | _ :: _, [] => false
  | a :: as, b :: bs => a == b && charsHavePre as bs

/-- Boolean substring test on character lists. -/
def charsHaveSub (sub : List Char) : List Char → Bool
  | [] => sub.isEmpty
  | b :: bs => charsHavePre sub (b :: bs) || charsHaveSub sub bs

/-- JS `s.includes(sub)`. -/
def strContains (s sub : String) : Bool :=
  charsHaveSub sub.data s.data

/-! ## JS `trim` and `split` (used by the license store and the port
reclaimer; modelled directly over character lists so they compute). -/

/-- Drop leading and trailing whitespace from a character list. -/
def trimChars (l : List Char) : List Char :=
  ((l.dropWhile Char.isWhitespace).reverse.dropWhile Char.isWhitespace).reverse

/-- JS `s.trim()`. -/
def jsTrim (s : String) : String := String.mk (trimChars s.data)

/-- Split a character list at newline characters (JS `split('\n')`). -/
def splitOnNl : List Char → List (List Char)
  | [] => [[]]
  | c :: cs =>
    if c == '\n' then [] :: splitOnNl cs
    else
      match splitOnNl cs with
      | [] => [[c]]
      | g :: gs => (c :: g) :: gs

/-- JS `s.split('\n')`. -/
def jsSplitLines (s : String) : List String := (splitOnNl s.data).map String.mk

/-! ## License storage (source: `validateLicense`, `getStoredLicense`,
`storeLicenseKey`, and the `check-license` IPC handler).

The license file is modelled as `Option String` (`none` = file absent).
The source swallows file-system exceptions, turning them into `null` /
`false`; the model has no exceptions, so those catch branches are the
identity here. -/

/-- The fixed reference key (source constant `VALID_LICENSE_KEY`). -/
def VALID_LICENSE_KEY : String := "95001958328698042535"

/-- JS `licenseKey.replace(/\D/g, '')`: drop every non-digit character. -/
def stripNonDigits (s : String) : String :=
  String.mk (s.data.filter (fun c => c.isDigit))

/-- Source `validateLicense`: the stripped key must equal the reference. -/
def validateLicense (licenseKey : String) : Bool :=
  stripNonDigits licenseKey == VALID_LICENSE_KEY

/-- Source `storeLicenseKey`: normalize, validate, persist on success.
Returns the new file state and the boolean result. -/
def storeLicenseKey (file : Option String) (licenseKey : String) :
    Option String × Bool :=
  let normalized := stripNonDigits licenseKey
  if validateLicense normalized then
    (some normalized, true)
  else
    (file, false)

/-- Source `getStoredLicense`: read, trim, re-validate on every read. -/
def getStoredLicense (file : Option String) : Option String :=
  match file with
  | none => none
  | some content =>
    let licenseKey := jsTrim content
    if validateLicense licenseKey then some licenseKey else none

/-- The `check-license` IPC handler: `getStoredLicense() !== null`. -/
def checkLicense (file : Option String) : Bool :=
  (getStoredLicense file).isSome

/-! ## The launch attempt state machine (source: `startBackend`)

One `startBackend` call installs stream handlers, an exit handler, a
debounced health probe armed by startup markers, and a 30 second startup
deadline timer.  All callbacks run on the single-threaded event loop, so
an attempt is a state acted on by an interleaved sequence of atomic
events.  The in-flight HTTP health probes are collapsed into one atomic
event carrying the probe result; this is faithful for resolution
accounting because every probe path ends in `resolveWithCleanup`, which
re-checks the `backendReady` flag itself.

`resolveCount`, `rejects` and `probesScheduled` are instrumentation
fields: they record, respectively, the calls to the promise `resolve`,
the calls to `reject` with their payloads, and the number of times a
debounced health-probe `setTimeout` was armed.  No handler branches on
them. -/

/-- Payload of a promise rejection inside `startBackend`. -/
inductive RejectReason where
  /-- The exit handler's rejection: non-zero exit before readiness,
  aggregating every captured stdout and stderr chunk. -/
  | crashBeforeReady (code : Option Int) (stdoutOutput errorOutput : List String)
  /-- The deadline handler's rejection: startup timeout with the process
  gone, carrying the diagnostic flags and the last 50 chunks per stream. -/
  | startupTimeout (exitCode : Option Int) (sawStartupBegin sawMigrations : Bool)
      (stdoutTail errorTail : List String)
deriving Repr, DecidableEq

/-- Module-level supervisor state (source globals `backendWasReady` and
`backendRestartCount`); it survives across launch attempts. -/
structure Globals where
  backendWasReady : Bool
  backendRestartCount : Nat
deriving Repr, DecidableEq

/-- Per-attempt state: the locals of one `startBackend` call plus the
child-process status visible to its handlers. -/
structure Attempt where
  backendReady : Bool
  healthCheckScheduled : Bool
  sawStartupBegin : Bool
  sawMigrations : Bool
  stdoutOutput : List String
  errorOutput : List String
  /-- A debounced health-probe `setTimeout` is pending. -/
  probeArmed : Bool
  /-- `timeoutId` is non-null and the deadline timer has not fired. -/
  timeoutArmed : Bool
  /-- `some code` once the process `exit` event has fired (`code` is the
  JS exit code, `none` inside for a signal-terminated child). -/
  exited : Option (Option Int)
  /-- Instrumentation: number of calls to the promise `resolve`. -/
  resolveCount : Nat
  /-- Instrumentation: calls to `reject`, in order, with payloads. -/
  rejects : List RejectReason
  /-- Instrumentation: number of health-probe `setTimeout` armings. -/
  probesScheduled : Nat
deriving Repr, DecidableEq

/-- Attempt state right after the synchronous part of `startBackend`:
handlers installed, deadline timer armed, nothing observed yet. -/
def startAttempt : Attempt :=
  { backendReady := false, healthCheckScheduled := false,
    sawStartupBegin := false, sawMigrations := false,
    stdoutOutput := [], errorOutput := [], probeArmed := false,
    timeoutArmed := true, exited := none,
    resolveCount := 0, rejects := [], probesScheduled := 0 }

/-- Module state at application start. -/
def initGlobals : Globals := { backendWasReady := false, backendRestartCount := 0 }

/-- Source `resolveWithCleanup`: checked-and-set resolution guard; on the
first call it marks the attempt ready, latches the sticky global
`backendWasReady`, clears the deadline timer and calls `resolve`. -/
def resolveWithCleanup (g : Globals) (a : Attempt) : Globals × Attempt :=
  if !a.backendReady then
    ({ g with backendWasReady := true },
     { a with backendReady := true, timeoutArmed := false,
              resolveCount := a.resolveCount + 1 })
  else (g, a)

/-- Source stdout `data` handler.  The two readiness markers are tested in
two separate blocks, each guarded by `!backendReady && !healthCheckScheduled`
and each arming its own debounced probe. -/
def onStdoutData (out : String) (g : Globals) (a : Attempt) : Globals × Attempt :=
  let a1 := { a with stdoutOutput := a.stdoutOutput ++ [out] }
  let a2 := if strContains out "Started server process" then
              { a1 with sawStartupBegin := true }
            else a1
  let a3 := if strContains out "migration" || strContains out "alembic" ||
               strContains out "alembic.runtime.migration" then
              { a2 with sawMigrations := true }
            else a2
  let a4 := if strContains out "Uvicorn running on" then
              (if !a3.backendReady && !a3.healthCheckScheduled then
                 { a3 with healthCheckScheduled := true, probeArmed := true,
                           probesScheduled := a3.probesScheduled + 1 }
               else a3)
            else a3
  let a5 := if strContains out "=== Application startup complete ===" then
              (if !a4.backendReady && !a4.healthCheckScheduled then
                 { a4 with healthCheckScheduled := true, probeArmed := true,
                           probesScheduled := a4.probesScheduled + 1 }
               else a4)
            else a4
  (g, a5)

/-- Source stderr `data` handler: same flags, one combined marker test. -/
def onStderrData (out : String) (g : Globals) (a : Attempt) : Globals × Attempt :=
  let a1 := { a with errorOutput := a.errorOutput ++ [out] }
  let a2 := if strContains out "Started server process" then
              { a1 with sawStartupBegin := true }
            else a1
  let a3 := if strContains out "migration" || strContains out "alembic" ||
               strContains out "alembic.runtime.migration" then
              { a2 with sawMigrations := true }
            else a2
  let a4 := if (strContains out "Uvicorn running on" ||
                strContains out "=== Application startup complete ===") &&
               !a3.backendReady && !a3.healthCheckScheduled then
              { a3 with healthCheckScheduled := true, probeArmed := true,
                        probesScheduled := a3.probesScheduled + 1 }
            else a3
  (g, a4)

/-- A debounced health probe fires and its HTTP request completes with
result `probeOk`.  The callback re-checks `backendReady`; a 200 response
calls `resolveWithCleanup` directly and every failure is caught and also
calls `resolveWithCleanup`. -/
def onProbeComplete (probeOk : Bool) (g : Globals) (a : Attempt) : Globals × Attempt :=
  if !a.probeArmed then (g, a)
  else
    let a1 := { a with probeArmed := false }
    if !a1.backendReady then
      if probeOk then resolveWithCleanup g a1 else resolveWithCleanup g a1
    else (g, a1)

/-- Source exit handler (`backendProcess.on('exit')`). -/
def onExit (code : Option Int) (g : Globals) (a : Attempt) : Globals × Attempt :=
  if a.exited.isSome then (g, a)
  else
    let a1 := { a with exited := some code }
    if code ≠ some 0 ∧ code ≠ none then
      if !a1.backendReady then
        (g, { a1 with rejects := a1.rejects ++
                [RejectReason.crashBeforeReady code a1.stdoutOutput a1.errorOutput] })
      else if g.backendWasReady ∧ g.backendRestartCount < 1 then
        ({ g with backendRestartCount := g.backendRestartCount + 1 }, a1)
      else (g, a1)
    else (g, a1)

/-- The liveness test used by the deadline handler:
`backendProcess && !backendProcess.killed && backendProcess.exitCode === null`.
`kill()` is never called on a still-starting child, so the test reduces to
`exitCode === null`, which also holds for a signal-terminated child. -/
def exitCodeIsNull (a : Attempt) : Bool :=
  match a.exited with
  | none => true
  | some none => true
  | some (some _) => false

/-- JS `array.slice(-n)`: the last (up to) `n` elements. -/
def sliceLast (n : Nat) (l : List String) : List String := l.drop (l.length - n)

/-- Source 30 second deadline handler (`timeoutId = setTimeout(..., 30000)`).
If the liveness test passes, a last-chance probe runs and both its success
and its failure branch end in `resolveWithCleanup`; otherwise the handler
clears the timer and rejects with the tail diagnostics. -/
def onStartupTimeout (probeOk : Bool) (g : Globals) (a : Attempt) : Globals × Attempt :=
  if !a.timeoutArmed then (g, a)
  else
    let a1 := { a with timeoutArmed := false }
    if a1.backendReady then (g, a1)
    else if exitCodeIsNull a1 then
      if probeOk then resolveWithCleanup g a1 else resolveWithCleanup g a1
    else
      (g, { a1 with rejects := a1.rejects ++
              [RejectReason.startupTimeout (a1.exited.getD none) a1.sawStartupBegin
                a1.sawMigrations
                (sliceLast 50 a1.stdoutOutput) (sliceLast 50 a1.errorOutput)] })

/-- The asynchronous events one launch attempt can receive. -/
inductive Event where
  | stdoutLine (out : String)
  | stderrLine (out : String)
  | probeComplete (probeOk : Bool)
  | timeoutFire (probeOk : Bool)
  | processExit (code : Option Int)
deriving Repr, DecidableEq

/-- Dispatch one event loop callback. -/
def step (g : Globals) (a : Attempt) : Event → Globals × Attempt
  | .stdoutLine out => onStdoutData out g a
  | .stderrLine out => onStderrData out g a
  | .probeComplete probeOk => onProbeComplete probeOk g a
  | .timeoutFire probeOk => onStartupTimeout probeOk g a
  | .processExit code => onExit code g a

/-- Run a sequence of events against one attempt. -/
def run (g : Globals) (a : Attempt) : List Event → Globals × Attempt
  | [] => (g, a)
  | e :: es =>
    let p := step g a e
    run p.1 p.2 es

/-- Total number of resolution calls (resolve plus reject) of an attempt. -/
def resolutionCalls (a : Attempt) : Nat := a.resolveCount + a.rejects.length

/-! ## Supervisor session: several attempts over the same module globals -/

/-- Session-level events: an attempt event, or a fresh `startBackend` call
replacing the current attempt (the automatic restart and the forced
`restart-backend` request both re-enter `startBackend`; module globals are
not reset). -/
inductive SEvent where
  | attemptEvent (e : Event)
  | newAttempt
deriving Repr, DecidableEq

/-- One session step. -/
def sstep (s : Globals × Attempt) : SEvent → Globals × Attempt
  | .attemptEvent e => step s.1 s.2 e
  | .newAttempt => (s.1, startAttempt)

/-- Run a session trace. -/
def srun (s : Globals × Attempt) : List SEvent → Globals × Attempt
  | [] => s
  | e :: es => srun (sstep s e) es

/-- Session state at application start: fresh globals, first attempt. -/
def initSession : Globals × Attempt := (initGlobals, startAttempt)

/-! ## Port reclaimer (source: `killExistingBackend` and the head of
`startBackend`) -/

/-- Externally visible actions of the launch prelude. -/
inductive KAction where
  /-- One `kill -9 p1 p2 ...` (or `taskkill`) command naming every pid. -/
  | killSignal (pids : List String)
  /-- The `spawn` call. -/
  | spawnBackend
deriving Repr, DecidableEq

/-- JS `stdout.trim().split('\n').filter(pid => pid.trim())`. -/
def parsePids (stdout : String) : List String :=
  (jsSplitLines (jsTrim stdout)).filter (fun pid => jsTrim pid != "")

/-- Delays (in ms after the kill command's callback starts) at which the
promise `resolve` is called, in source order: on success the callback
schedules `setTimeout(resolve, 1000)` and then falls through to an
unconditional immediate `resolve()`; on a kill error only the immediate
`resolve()` runs. -/
def resolveCallDelays (killErr : Bool) : List Nat :=
  if killErr then [0] else [1000, 0]

/-- A JS promise settles at its earliest resolution call; later calls are
no-ops. -/
def settleDelay : List Nat → Option Nat
  | [] => none
  | d :: ds =>
    some (match settleDelay ds with
          | none => d
          | some e => min d e)

/-- Source `killExistingBackend`, given the port-enumeration result and
whether the kill command errors.  Returns the actions performed and the
delay after the kill callback at which the returned promise settles
(`some 0` also covers the nothing-found early resolves). -/
def killExistingBackend (lsofErr : Bool) (lsofStdout : String) (killErr : Bool) :
    List KAction × Option Nat :=
  if lsofErr || jsTrim lsofStdout == "" then ([], some 0)
  else
    let pids := parsePids lsofStdout
    if pids.isEmpty then ([], some 0)
    else ([KAction.killSignal pids], settleDelay (resolveCallDelays killErr))

/-- Head of `startBackend`: `await killExistingBackend()` strictly before
the `spawn` call, so the action sequence is the reclaimer's actions
followed by the spawn. -/
def startBackendPrelude (lsofErr : Bool) (lsofStdout : String) (killErr : Bool) :
    List KAction :=
  (killExistingBackend lsofErr lsofStdout killErr).1 ++ [KAction.spawnBackend]

/-! ## Child environment construction (source: the `env` object inside
`startBackend` and its undefined-removal pass) -/

/-- A JS object with possibly-undefined string values, as an entry list. -/
abbrev JsObj := List (String × Option String)

/-- JS property assignment: replace the key, keep lookups last-wins-free. -/
def objSet (o : JsObj) (k : String) (v : Option String) : JsObj :=
  (o.filter (fun p => !(p.1 == k))) ++ [(k, v)]

/-- JS property read: `undefined`-valued properties are distinguished from
absent ones (`some none` versus `none`). -/
def objGet (o : JsObj) (k : String) : Option (Option String) :=
  (o.find? (fun p => p.1 == k)).map (fun p => p.2)

/-- The `env` object literal from the source: spread of `process.env`,
then the overrides.  `DATABASE_PATH` and `UPLOAD_DIR` compute to
`undefined` in development mode; `BILLTRIM_LOG_DIR` is set in both
modes. -/
def buildBackendEnv (procEnv : List (String × String)) (isDev : Bool)
    (pathEnv backendPath dbPath uploadsDir logsDir : String) : JsObj :=
  let env : JsObj := procEnv.map (fun p => (p.1, some p.2))
  let env := objSet env "PATH" (some pathEnv)
  let env := objSet env "PYTHONPATH" (some backendPath)
  let env := objSet env "PYTHONUNBUFFERED" (some "1")
  let env := objSet env "DATABASE_PATH" (if isDev then none else some dbPath)
  let env := objSet env "UPLOAD_DIR" (if isDev then none else some uploadsDir)
  let env := objSet env "BILLTRIM_LOG_DIR" (some logsDir)
  env

/-- The `delete env[key]` pass over undefined values: keep only the
defined entries of an object. -/
def stripObj (o : JsObj) : List (String × String) :=
  o.filterMap (fun p => p.2.map (fun v => (p.1, v)))

/-- The environment that actually reaches `spawn`: the computed object
after the undefined-removal pass. -/
def spawnEnv (procEnv : List (String × String)) (isDev : Bool)
    (pathEnv backendPath dbPath uploadsDir logsDir : String) :
    List (String × String) :=
  stripObj (buildBackendEnv procEnv isDev pathEnv backendPath dbPath uploadsDir logsDir)

/-- Variable lookup in the spawned environment. -/
def envLookup (e : List (String × String)) (k : String) : Option String :=
  (e.find? (fun p => p.1 == k)).map (fun p => p.2)

/-! ## Classifiers used by the statements -/

/-- Whether a rejection came from the exit handler. -/
def isCrashReject : RejectReason → Bool
  | .crashBeforeReady _ _ _ => true
  | .startupTimeout _ _ _ _ _ => false

/-- Rejections of an attempt issued by the exit handler. -/
def crashRejects (a : Attempt) : Nat := a.rejects.countP isCrashReject

/-- Rejections of an attempt issued by the deadline handler. -/
def timeoutRejects (a : Attempt) : Nat :=
  a.rejects.countP (fun r => !isCrashReject r)

/-- A chunk containing either readiness marker. -/
def hasReadyMarker (out : String) : Bool :=
  strContains out "Uvicorn running on" ||
  strContains out "=== Application startup complete ==="

/-- Stream-line events (the pure stdout/stderr histories). -/
def isLineEvent : Event → Bool
  | .stdoutLine _ => true
  | .stderrLine _ => true
  | _ => false

/-- A stream-line event carrying a readiness marker. -/
def isReadyMarkerLine : Event → Bool
  | .stdoutLine out => hasReadyMarker out
  | .stderrLine out => hasReadyMarker out
  | _ => false

/-- The single-resolution invariant material: how the instrumentation
fields relate to the guard flags in every reachable attempt state. -/
structure AttemptInv (a : Attempt) : Prop where
  rc : a.resolveCount = (if a.backendReady then 1 else 0)
  readyTimer : a.backendReady = true → a.timeoutArmed = false
  settled : a.timeoutArmed = false → 1 ≤ a.resolveCount + a.rejects.length
  crashBound : crashRejects a ≤ (if a.exited.isSome then 1 else 0)
  tmoBound : timeoutRejects a ≤ (if a.timeoutArmed then 0 else 1)
  probes : a.probesScheduled = (if a.healthCheckScheduled then 1 else 0)

/-! ## Theorems -/

theorem stripNonDigits_idem (s : String) :
    stripNonDigits (stripNonDigits s) = stripNonDigits s := by
  simp [stripNonDigits, List.filter_filter]

theorem validate_strip_eq (k : String) :
    validateLicense (stripNonDigits k) = validateLicense k := by
  simp [validateLicense, stripNonDigits_idem]

theorem validateLicense_eq_true_iff (k : String) :
    validateLicense k = true ↔ stripNonDigits k = VALID_LICENSE_KEY := by
  simp [validateLicense]

theorem storeLicenseKey_snd (file : Option String) (k : String) :
    (storeLicenseKey file k).2 = validateLicense k := by
  simp only [storeLicenseKey]
  rw [validate_strip_eq]
  by_cases h : validateLicense k = true <;> simp [h]

theorem storeLicenseKey_fst_of_valid (file : Option String) (k : String)
    (h : validateLicense k = true) :
    (storeLicenseKey file k).1 = some (stripNonDigits k) := by
  simp only [storeLicenseKey]
  rw [validate_strip_eq]
  simp [h]

theorem storeLicenseKey_fst_of_invalid (file : Option String) (k : String)
    (h : validateLicense k = false) :
    (storeLicenseKey file k).1 = file := by
  simp only [storeLicenseKey]
  rw [validate_strip_eq]
  simp [h]

/-- C8: `store-license(rawKey)` returns true and persists the normalized
key if and only if `rawKey` with all non-digit characters removed equals
the fixed reference `"95001958328698042535"`; otherwise it returns false
and leaves the stored file untouched.  Storing
`"9500-1958-328698042535"` normalizes to the reference and validates
true, while `"00000000000000000000"` validates false. -/
theorem C8_store_license_characterization (file : Option String) (rawKey : String) :
    ((storeLicenseKey file rawKey).2 = true ↔
      stripNonDigits rawKey = VALID_LICENSE_KEY)
    ∧ ((storeLicenseKey file rawKey).2 = true →
        (storeLicenseKey file rawKey).1 = some (stripNonDigits rawKey))
    ∧ ((storeLicenseKey file rawKey).2 = false →
        (storeLicenseKey file rawKey).1 = file)
    ∧ stripNonDigits "9500-1958-328698042535" = "95001958328698042535"
    ∧ (storeLicenseKey file "9500-1958-328698042535").2 = true
    ∧ validateLicense "00000000000000000000" = false
    ∧ (storeLicenseKey file "00000000000000000000").2 = false := by
  refine ⟨?_, ?_, ?_, by decide, ?_, by decide, ?_⟩
  · rw [storeLicenseKey_snd]
    exact validateLicense_eq_true_iff rawKey
  · intro h
    rw [storeLicenseKey_snd] at h
    exact storeLicenseKey_fst_of_valid file rawKey h
  · intro h
    rw [storeLicenseKey_snd] at h
    exact storeLicenseKey_fst_of_invalid file rawKey ((Bool.not_eq_true _).mp (by simp [h]))
  · rw [storeLicenseKey_snd]; decide
  · rw [storeLicenseKey_snd]; decide

/-- Witness for C8 at a concrete raw key and file state. -/
theorem C8_store_license_characterization_witness :
    (storeLicenseKey none "9500-1958-328698042535").1 = some "95001958328698042535" := by
  have h := (C8_store_license_characterization none "9500-1958-328698042535").2.1 (by decide)
  rw [h]; decide

/-- C10: a successful `store-license` is observable through an immediately
following `check-license`: whenever `storeLicenseKey` returns true, the
resulting stored file passes `checkLicense`. -/
theorem C10_store_check_roundtrip (file : Option String) (rawKey : String)
    (h : (storeLicenseKey file rawKey).2 = true) :
    checkLicense (storeLicenseKey file rawKey).1 = true := by
  have hv : validateLicense rawKey = true := by
    rw [storeLicenseKey_snd] at h; exact h
  have hs : stripNonDigits rawKey = VALID_LICENSE_KEY :=
    (validateLicense_eq_true_iff rawKey).mp hv
  rw [storeLicenseKey_fst_of_valid file rawKey hv, hs]
  decide

/-- Witness for C10: store the dashed key, then check. -/
theorem C10_store_check_roundtrip_witness :
    checkLicense (storeLicenseKey none "9500-1958-328698042535").1 = true :=
  C10_store_check_roundtrip none "9500-1958-328698042535" (by decide)

/-- C6 evaluation: with `lsof` reporting PIDs 123 and 456 and a successful
kill command, both pids are named in one termination command issued
strictly before the spawn action, but the reclaimer's promise settles at
delay 0 after the kill callback: the scheduled 1000 ms grace
`setTimeout(resolve, 1000)` is preempted by the unconditional `resolve()`
that follows it, so no grace period is actually awaited. -/
theorem C6_reclaim_before_spawn_no_grace_wait :
    startBackendPrelude false "123\n456" false =
      [KAction.killSignal ["123", "456"], KAction.spawnBackend]
    ∧ resolveCallDelays false = [1000, 0]
    ∧ (killExistingBackend false "123\n456" false).2 = some 0 := by
  decide

theorem rejects_length_split (l : List RejectReason) :
    l.length = l.countP isCrashReject + l.countP (fun r => !isCrashReject r) := by
  induction l with
  | nil => simp
  | cons r l ih =>
    by_cases h : isCrashReject r = true <;> simp [List.countP_cons, h, ih] <;> omega

theorem onStdoutData_spec (out : String) (g : Globals) (a : Attempt) :
    (onStdoutData out g a).1 = g
    ∧ (onStdoutData out g a).2.backendReady = a.backendReady
    ∧ (onStdoutData out g a).2.resolveCount = a.resolveCount
    ∧ (onStdoutData out g a).2.rejects = a.rejects
    ∧ (onStdoutData out g a).2.timeoutArmed = a.timeoutArmed
    ∧ (onStdoutData out g a).2.exited = a.exited
    ∧ (onStdoutData out g a).2.healthCheckScheduled
        = (a.healthCheckScheduled || (!a.backendReady && hasReadyMarker out))
    ∧ (onStdoutData out g a).2.probesScheduled
        = a.probesScheduled +
          (if (!a.backendReady && !a.healthCheckScheduled && hasReadyMarker out) = true
           then 1 else 0) := by
  unfold onStdoutData
  by_cases h1 : strContains out "Started server process" = true <;>
  by_cases h2 : (strContains out "migration" || strContains out "alembic" ||
      strContains out "alembic.runtime.migration") = true <;>
  by_cases h5 : strContains out "Uvicorn running on" = true <;>
  by_cases h6 : strContains out "=== Application startup complete ===" = true <;>
  by_cases h7 : a.backendReady = true <;>
  by_cases h8 : a.healthCheckScheduled = true <;>
  simp [h1, h2, h5, h6, h7, h8, hasReadyMarker]

theorem onStderrData_spec (out : String) (g : Globals) (a : Attempt) :
    (onStderrData out g a).1 = g
    ∧ (onStderrData out g a).2.backendReady = a.backendReady
    ∧ (onStderrData out g a).2.resolveCount = a.resolveCount
    ∧ (onStderrData out g a).2.rejects = a.rejects
    ∧ (onStderrData out g a).2.timeoutArmed = a.timeoutArmed
    ∧ (onStderrData out g a).2.exited = a.exited
    ∧ (onStderrData out g a).2.healthCheckScheduled
        = (a.healthCheckScheduled || (!a.backendReady && hasReadyMarker out))
    ∧ (onStderrData out g a).2.probesScheduled
        = a.probesScheduled +
          (if (!a.backendReady && !a.healthCheckScheduled && hasReadyMarker out) = true
           then 1 else 0) := by
  unfold onStderrData
  by_cases h1 : strContains out "Started server process" = true <;>
  by_cases h2 : (strContains out "migration" || strContains out "alembic" ||
      strContains out "alembic.runtime.migration") = true <;>
  by_cases h5 : strContains out "Uvicorn running on" = true <;>
  by_cases h6 : strContains out "=== Application startup complete ===" = true <;>
  by_cases h7 : a.backendReady = true <;>
  by_cases h8 : a.healthCheckScheduled = true <;>
  simp [h1, h2, h5, h6, h7, h8, hasReadyMarker]

theorem attemptInv_startAttempt : AttemptInv startAttempt := by
  constructor <;> simp [startAttempt, crashRejects, timeoutRejects]

theorem resolveWithCleanup_eq (g : Globals) (a : Attempt) (h : a.backendReady = false) :
    resolveWithCleanup g a =
      ({ g with backendWasReady := true },
       { a with backendReady := true, timeoutArmed := false,
                resolveCount := a.resolveCount + 1 }) := by
  simp [resolveWithCleanup, h]

theorem resolveWithCleanup_rejects (g : Globals) (a : Attempt) :
    (resolveWithCleanup g a).2.rejects = a.rejects := by
  unfold resolveWithCleanup
  by_cases h : a.backendReady = true <;> simp [h]

theorem attemptInv_resolveWithCleanup (g : Globals) (a : Attempt)
    (hI : AttemptInv a) : AttemptInv (resolveWithCleanup g a).2 := by
  by_cases h : a.backendReady = true
  · simpa [resolveWithCleanup, h] using hI
  · rw [Bool.not_eq_true] at h
    rw [resolveWithCleanup_eq g a h]
    obtain ⟨rc, rt, st, cb, tb, pr⟩ := hI
    rw [h] at rc
    constructor
    · simp at rc ⊢
      omega
    · simp
    · intro _
      simp
      omega
    · simpa [crashRejects] using cb
    · simp only [timeoutRejects] at tb ⊢
      simp
      exact le_trans tb (by split <;> omega)
    · simp [pr]

theorem attemptInv_onStdoutData (out : String) (g : Globals) (a : Attempt)
    (hI : AttemptInv a) : AttemptInv (onStdoutData out g a).2 := by
  obtain ⟨hg, hbr, hrc, hrj, hta, hex, hhcs, hps⟩ := onStdoutData_spec out g a
  obtain ⟨rc, rt, st, cb, tb, pr⟩ := hI
  constructor
  · rw [hrc, hbr]; exact rc
  · rw [hbr, hta]; exact rt
  · rw [hta, hrc, hrj]; exact st
  · simp only [crashRejects] at cb ⊢
    rw [hrj, hex]; exact cb
  · simp only [timeoutRejects] at tb ⊢
    rw [hrj, hta]; exact tb
  · rw [hps, hhcs, pr]
    by_cases hb : a.backendReady = true <;>
    by_cases hh : a.healthCheckScheduled = true <;>
    by_cases hm : hasReadyMarker out = true <;>
    simp [hb, hh, hm]

theorem attemptInv_onStderrData (out : String) (g : Globals) (a : Attempt)
    (hI : AttemptInv a) : AttemptInv (onStderrData out g a).2 := by
  obtain ⟨hg, hbr, hrc, hrj, hta, hex, hhcs, hps⟩ := onStderrData_spec out g a
  obtain ⟨rc, rt, st, cb, tb, pr⟩ := hI
  constructor
  · rw [hrc, hbr]; exact rc
  · rw [hbr, hta]; exact rt
  · rw [hta, hrc, hrj]; exact st
  · simp only [crashRejects] at cb ⊢
    rw [hrj, hex]; exact cb
  · simp only [timeoutRejects] at tb ⊢
    rw [hrj, hta]; exact tb
  · rw [hps, hhcs, pr]
    by_cases hb : a.backendReady = true <;>
    by_cases hh : a.healthCheckScheduled = true <;>
    by_cases hm : hasReadyMarker out = true <;>
    simp [hb, hh, hm]

theorem attemptInv_onProbeComplete (probeOk : Bool) (g : Globals) (a : Attempt)
    (hI : AttemptInv a) : AttemptInv (onProbeComplete probeOk g a).2 := by
  unfold onProbeComplete
  by_cases hpa : a.probeArmed = true
  · have hI1 : AttemptInv { a with probeArmed := false } := by
      obtain ⟨rc, rt, st, cb, tb, pr⟩ := hI
      constructor <;> simp_all [crashRejects, timeoutRejects]
    by_cases hbr : a.backendReady = true
    · simpa [hpa, hbr] using hI1
    · have hbr2 : a.backendReady = false := by simpa using hbr
      have h2 := attemptInv_resolveWithCleanup g { a with probeArmed := false } hI1
      cases probeOk <;> simpa [hpa, hbr2] using h2
  · simp only [Bool.not_eq_true] at hpa
    simpa [onProbeComplete, hpa] using hI


theorem crashRejects_le_one (a : Attempt) (hI : AttemptInv a) : crashRejects a ≤ 1 := by
  refine le_trans hI.crashBound ?_
  split <;> omega

theorem timeoutRejects_le_one (a : Attempt) (hI : AttemptInv a) : timeoutRejects a ≤ 1 := by
  refine le_trans hI.tmoBound ?_
  split <;> omega

theorem attemptInv_set_exited (code : Option Int) (a : Attempt)
    (hI : AttemptInv a) : AttemptInv { a with exited := some code } := by
  obtain ⟨rc, rt, st, cb, tb, pr⟩ := hI
  constructor
  · simpa using rc
  · simpa using rt
  · simpa using st
  · simp only [crashRejects] at cb ⊢
    simp only [Option.isSome_some]
    refine le_trans (le_trans cb ?_) (le_refl 1)
    split <;> omega
  · simpa [timeoutRejects] using tb
  · simpa using pr


theorem isCrashReject_crash (code : Option Int) (so se : List String) :
    isCrashReject (RejectReason.crashBeforeReady code so se) = true := rfl

theorem isCrashReject_tmo (code : Option Int) (b1 b2 : Bool) (so se : List String) :
    isCrashReject (RejectReason.startupTimeout code b1 b2 so se) = false := rfl

theorem attemptInv_onExit (code : Option Int) (g : Globals) (a : Attempt)
    (hI : AttemptInv a) : AttemptInv (onExit code g a).2 := by
  unfold onExit
  by_cases hex : a.exited.isSome = true
  · simpa [hex] using hI
  · have hexn : a.exited = none := by
      cases h : a.exited
      · rfl
      · rw [h] at hex; simp at hex
    rw [if_neg hex]
    by_cases hnz : code ≠ some 0 ∧ code ≠ none
    · rw [if_pos hnz]
      by_cases hbr : a.backendReady = true
      · rw [if_neg (by simp [hbr] :
          ¬ ((!({ a with exited := some code } : Attempt).backendReady) = true))]
        by_cases hgw : g.backendWasReady = true ∧ g.backendRestartCount < 1
        · rw [if_pos hgw]
          exact attemptInv_set_exited code a hI
        · rw [if_neg hgw]
          exact attemptInv_set_exited code a hI
      · have hbr2 : a.backendReady = false := by simpa using hbr
        rw [if_pos (by simp [hbr2] :
          (!({ a with exited := some code } : Attempt).backendReady) = true)]
        obtain ⟨rc, rt, st, cb, tb, pr⟩ := hI
        have cb0 : crashRejects a = 0 := by
          rw [hexn] at cb
          simpa using cb
        have tb1 : timeoutRejects a ≤ 1 := by
          refine le_trans tb ?_
          split <;> omega
        have rc0 : a.resolveCount = 0 := by simpa [hbr2] using rc
        constructor
        · simpa [hbr2] using rc
        · simp [hbr2]
        · intro h
          simp [rc0]
        · simp only [crashRejects] at cb0
          simp only [crashRejects, List.countP_append, List.countP_cons,
            List.countP_nil, isCrashReject_crash]
          simp [cb0]
        · simp only [timeoutRejects] at tb ⊢
          simpa [List.countP_append, List.countP_cons, isCrashReject_crash] using tb
        · simpa using pr
    · rw [if_neg hnz]
      exact attemptInv_set_exited code a hI

theorem attemptInv_onStartupTimeout (probeOk : Bool) (g : Globals) (a : Attempt)
    (hI : AttemptInv a) : AttemptInv (onStartupTimeout probeOk g a).2 := by
  unfold onStartupTimeout
  by_cases hta : a.timeoutArmed = true
  · rw [if_neg (by simp [hta] : ¬ ((!a.timeoutArmed) = true))]
    obtain ⟨rc, rt, st, cb, tb, pr⟩ := hI
    have tb0 : timeoutRejects a = 0 := by
      rw [hta] at tb
      simpa using tb
    by_cases hbr : a.backendReady = true
    · rw [if_pos (by simp [hbr] :
        ({ a with timeoutArmed := false } : Attempt).backendReady = true)]
      rw [hbr] at rc
      constructor
      · simpa [hbr] using rc
      · intro _; simp
      · intro _
        simp [rc]
      · simpa [crashRejects] using cb
      · simp only [timeoutRejects] at tb0 ⊢
        simp
        omega
      · simpa using pr
    · have hbr2 : a.backendReady = false := by simpa using hbr
      rw [if_neg (by simp [hbr2] :
        ¬ (({ a with timeoutArmed := false } : Attempt).backendReady = true))]
      by_cases hnull : exitCodeIsNull { a with timeoutArmed := false } = true
      · rw [if_pos hnull]
        rw [hbr2] at rc
        have hfin := resolveWithCleanup_eq g { a with timeoutArmed := false }
          (by simp [hbr2])
        cases probeOk <;>
        · rw [hfin]
          constructor
          · simp [rc]
          · intro _; simp
          · intro _
            simp [rc]
          · simpa [crashRejects] using cb
          · simp only [timeoutRejects] at tb0 ⊢
            simp
            omega
          · simpa using pr
      · rw [if_neg hnull]
        have rc0 : a.resolveCount = 0 := by simpa [hbr2] using rc
        have hsome : a.exited.isSome = true := by
          cases h : a.exited with
          | none =>
            exfalso
            apply hnull
            simp [exitCodeIsNull, h]
          | some v => simp
        constructor
        · simpa [hbr2] using rc
        · simp [hbr2]
        · intro _
          simp
          omega
        · simp only [crashRejects] at cb
          simp only [crashRejects, List.countP_append, List.countP_cons,
            List.countP_nil, isCrashReject_tmo]
          simpa [hsome] using cb
        · simp only [timeoutRejects] at tb0
          simp only [timeoutRejects, List.countP_append, List.countP_cons,
            List.countP_nil, isCrashReject_tmo]
          simp [tb0]
        · simpa using pr
  · have hta2 : a.timeoutArmed = false := by simpa using hta
    rw [if_pos (by simp [hta2] : (!a.timeoutArmed) = true)]
    exact hI

theorem attemptInv_step (g : Globals) (a : Attempt) (e : Event)
    (hI : AttemptInv a) : AttemptInv (step g a e).2 := by
  cases e with
  | stdoutLine out => exact attemptInv_onStdoutData out g a hI
  | stderrLine out => exact attemptInv_onStderrData out g a hI
  | probeComplete probeOk => exact attemptInv_onProbeComplete probeOk g a hI
  | timeoutFire probeOk => exact attemptInv_onStartupTimeout probeOk g a hI
  | processExit code => exact attemptInv_onExit code g a hI

theorem attemptInv_run (g : Globals) (a : Attempt) (es : List Event)
    (hI : AttemptInv a) : AttemptInv (run g a es).2 := by
  induction es generalizing g a with
  | nil => exact hI
  | cons e es ih =>
    simp only [run]
    exact ih (step g a e).1 (step g a e).2 (attemptInv_step g a e hI)

theorem resolveWithCleanup_counts_mono (g : Globals) (a : Attempt) :
    a.resolveCount ≤ (resolveWithCleanup g a).2.resolveCount
    ∧ a.rejects.length ≤ (resolveWithCleanup g a).2.rejects.length := by
  unfold resolveWithCleanup
  by_cases h : a.backendReady = true <;> simp [h]

theorem step_counts_mono (g : Globals) (a : Attempt) (e : Event) :
    a.resolveCount ≤ (step g a e).2.resolveCount
    ∧ a.rejects.length ≤ (step g a e).2.rejects.length := by
  cases e with
  | stdoutLine out =>
    obtain ⟨_, _, hrc, hrj, _⟩ := onStdoutData_spec out g a
    simp [step, hrc, hrj]
  | stderrLine out =>
    obtain ⟨_, _, hrc, hrj, _⟩ := onStderrData_spec out g a
    simp [step, hrc, hrj]
  | probeComplete probeOk =>
    simp only [step]
    unfold onProbeComplete
    by_cases hpa : a.probeArmed = true
    · by_cases hbr : a.backendReady = true
      · simp [hpa, hbr]
      · have hbr2 : a.backendReady = false := by simpa using hbr
        have h2 := resolveWithCleanup_counts_mono g { a with probeArmed := false }
        cases probeOk <;> simpa [hpa, hbr2] using h2
    · have hpa2 : a.probeArmed = false := by simpa using hpa
      simp [hpa2]
  | timeoutFire probeOk =>
    simp only [step]
    unfold onStartupTimeout
    by_cases hta : a.timeoutArmed = true
    · rw [if_neg (by simp [hta] : ¬ ((!a.timeoutArmed) = true))]
      by_cases hbr : a.backendReady = true
      · simp [hbr]
      · have hbr2 : a.backendReady = false := by simpa using hbr
        rw [if_neg (by simp [hbr2] :
          ¬ (({ a with timeoutArmed := false } : Attempt).backendReady = true))]
        by_cases hnull : exitCodeIsNull { a with timeoutArmed := false } = true
        · rw [if_pos hnull]
          have h2 := resolveWithCleanup_counts_mono g { a with timeoutArmed := false }
          cases probeOk <;> simpa using h2
        · rw [if_neg hnull]
          simp
    · have hta2 : a.timeoutArmed = false := by simpa using hta
      simp [hta2]
  | processExit code =>
    simp only [step]
    unfold onExit
    by_cases hex : a.exited.isSome = true
    · simp [hex]
    · rw [if_neg hex]
      by_cases hnz : code ≠ some 0 ∧ code ≠ none
      · rw [if_pos hnz]
        by_cases hbr : a.backendReady = true
        · rw [if_neg (by simp [hbr] :
            ¬ ((!({ a with exited := some code } : Attempt).backendReady) = true))]
          by_cases hgw : g.backendWasReady = true ∧ g.backendRestartCount < 1
          · rw [if_pos hgw]; simp
          · rw [if_neg hgw]; simp
        · have hbr2 : a.backendReady = false := by simpa using hbr
          rw [if_pos (by simp [hbr2] :
            (!({ a with exited := some code } : Attempt).backendReady) = true)]
          simp
      · rw [if_neg hnz]; simp

theorem run_counts_mono (g : Globals) (a : Attempt) (es : List Event) :
    a.resolveCount ≤ (run g a es).2.resolveCount
    ∧ a.rejects.length ≤ (run g a es).2.rejects.length := by
  induction es generalizing g a with
  | nil => exact ⟨le_refl _, le_refl _⟩
  | cons e es ih =>
    simp only [run]
    obtain ⟨h1, h2⟩ := step_counts_mono g a e
    obtain ⟨h3, h4⟩ := ih (step g a e).1 (step g a e).2
    exact ⟨le_trans h1 h3, le_trans h2 h4⟩

theorem timeout_step_settles (probeOk : Bool) (g : Globals) (a : Attempt)
    (hI : AttemptInv a) :
    1 ≤ resolutionCalls (onStartupTimeout probeOk g a).2 := by
  unfold onStartupTimeout resolutionCalls
  by_cases hta : a.timeoutArmed = true
  · rw [if_neg (by simp [hta] : ¬ ((!a.timeoutArmed) = true))]
    by_cases hbr : a.backendReady = true
    · rw [if_pos (by simp [hbr] :
        ({ a with timeoutArmed := false } : Attempt).backendReady = true)]
      have := hI.rc
      rw [hbr] at this
      simp [this]
    · have hbr2 : a.backendReady = false := by simpa using hbr
      rw [if_neg (by simp [hbr2] :
        ¬ (({ a with timeoutArmed := false } : Attempt).backendReady = true))]
      by_cases hnull : exitCodeIsNull { a with timeoutArmed := false } = true
      · rw [if_pos hnull]
        rw [resolveWithCleanup_eq g { a with timeoutArmed := false } (by simp [hbr2])]
        cases probeOk <;> · simp; omega
      · rw [if_neg hnull]
        simp
        omega
  · have hta2 : a.timeoutArmed = false := by simpa using hta
    rw [if_pos (by simp [hta2] : (!a.timeoutArmed) = true)]
    exact hI.settled hta2

theorem run_after_timeoutFire (es : List Event) (g : Globals) (a : Attempt)
    (pr : Bool) (hI : AttemptInv a) (hm : Event.timeoutFire pr ∈ es) :
    1 ≤ resolutionCalls (run g a es).2 := by
  induction es generalizing g a with
  | nil => cases hm
  | cons e es ih =>
    simp only [run]
    rcases List.mem_cons.mp hm with he | hm2
    · subst he
      have h1 := timeout_step_settles pr g a hI
      obtain ⟨h3, h4⟩ := run_counts_mono (step g a (Event.timeoutFire pr)).1
        (step g a (Event.timeoutFire pr)).2 es
      unfold resolutionCalls at h1 ⊢
      simp only [step] at h3 h4 ⊢
      omega
    · exact ih (step g a e).1 (step g a e).2 (attemptInv_step g a e hI) hm2

/-- C1 (amended): over every event sequence delivered to one launch
attempt, `resolve` is called at most once (the `resolveWithCleanup` guard),
at most two rejections are issued (one by the exit handler, one by the
deadline handler), and once the startup deadline has fired the attempt has
at least one resolution call, so the promise — settled by the first call,
later calls being no-ops — settles exactly once.  The stated claim that
the total resolution-call count is exactly 1 under every order fails: the
reject paths do not set the resolved flag nor clear the deadline timer
(see the counterexample). -/
theorem C1_resolution_accounting (es : List Event) (pr : Bool) :
    (run initGlobals startAttempt es).2.resolveCount ≤ 1
    ∧ (run initGlobals startAttempt es).2.rejects.length ≤ 2
    ∧ (Event.timeoutFire pr ∈ es →
        1 ≤ resolutionCalls (run initGlobals startAttempt es).2) := by
  have hI := attemptInv_run initGlobals startAttempt es attemptInv_startAttempt
  refine ⟨?_, ?_, ?_⟩
  · rw [hI.rc]
    split <;> omega
  · have hsplit := rejects_length_split (run initGlobals startAttempt es).2.rejects
    have hc := crashRejects_le_one (run initGlobals startAttempt es).2 hI
    have ht := timeoutRejects_le_one (run initGlobals startAttempt es).2 hI
    simp only [crashRejects, timeoutRejects] at hc ht
    omega
  · intro hm
    exact run_after_timeoutFire es initGlobals startAttempt pr attemptInv_startAttempt hm

/-- Witness for C1: the deadline-only trace has one resolution call. -/
theorem C1_resolution_accounting_witness :
    1 ≤ resolutionCalls (run initGlobals startAttempt [Event.timeoutFire true]).2 :=
  (C1_resolution_accounting [Event.timeoutFire true] true).2.2 (by decide)

/-- Counterexample to C1 as stated: under the event order "process exits
with code 1 before readiness, then the (never-cleared) startup deadline
fires", the exit handler rejects and the deadline handler rejects again —
two resolution calls, not one. -/
theorem C1_counterexample :
    resolutionCalls (run initGlobals startAttempt
      [Event.processExit (some 1), Event.timeoutFire true]).2 = 2
    ∧ resolutionCalls (run initGlobals startAttempt
        [Event.processExit (some 1), Event.timeoutFire true]).2 ≠ 1 := by
  decide

theorem run_lines_probes (es : List Event) (g : Globals) (a : Attempt)
    (hl : ∀ e ∈ es, isLineEvent e = true)
    (hready : a.backendReady = false)
    (hrel : a.probesScheduled = if a.healthCheckScheduled = true then 1 else 0) :
    (run g a es).2.probesScheduled
      = if (a.healthCheckScheduled || es.any isReadyMarkerLine) = true then 1 else 0 := by
  induction es generalizing g a with
  | nil => simpa [run] using hrel
  | cons e es ih =>
    simp only [run]
    cases e with
    | stdoutLine out =>
      obtain ⟨hg, hbr, _, _, _, _, hhcs, hps⟩ := onStdoutData_spec out g a
      have hready2 : (step g a (Event.stdoutLine out)).2.backendReady = false := by
        simp only [step]
        rw [hbr]
        exact hready
      have hrel2 : (step g a (Event.stdoutLine out)).2.probesScheduled
          = if (step g a (Event.stdoutLine out)).2.healthCheckScheduled = true
            then 1 else 0 := by
        simp only [step]
        simp only [hps, hhcs, hrel, hready]
        by_cases hh : a.healthCheckScheduled = true <;>
        by_cases hm : hasReadyMarker out = true <;>
        simp [hh, hm]
      have hrun := ih (step g a (Event.stdoutLine out)).1
        (step g a (Event.stdoutLine out)).2
        (fun e2 he => hl e2 (List.mem_cons_of_mem _ he)) hready2 hrel2
      rw [hrun]
      simp only [step]
      simp only [hhcs, hready]
      simp only [List.any_cons]
      by_cases hh : a.healthCheckScheduled = true <;>
      by_cases hm : hasReadyMarker out = true <;>
      simp [hh, hm, isReadyMarkerLine]
    | stderrLine out =>
      obtain ⟨hg, hbr, _, _, _, _, hhcs, hps⟩ := onStderrData_spec out g a
      have hready2 : (step g a (Event.stderrLine out)).2.backendReady = false := by
        simp only [step]
        rw [hbr]
        exact hready
      have hrel2 : (step g a (Event.stderrLine out)).2.probesScheduled
          = if (step g a (Event.stderrLine out)).2.healthCheckScheduled = true
            then 1 else 0 := by
        simp only [step]
        simp only [hps, hhcs, hrel, hready]
        by_cases hh : a.healthCheckScheduled = true <;>
        by_cases hm : hasReadyMarker out = true <;>
        simp [hh, hm]
      have hrun := ih (step g a (Event.stderrLine out)).1
        (step g a (Event.stderrLine out)).2
        (fun e2 he => hl e2 (List.mem_cons_of_mem _ he)) hready2 hrel2
      rw [hrun]
      simp only [step]
      simp only [hhcs, hready]
      simp only [List.any_cons]
      by_cases hh : a.healthCheckScheduled = true <;>
      by_cases hm : hasReadyMarker out = true <;>
      simp [hh, hm, isReadyMarkerLine]
    | probeComplete probeOk =>
      exact absurd (hl _ (List.mem_cons_self _ _)) (by simp [isLineEvent])
    | timeoutFire probeOk =>
      exact absurd (hl _ (List.mem_cons_self _ _)) (by simp [isLineEvent])
    | processExit code =>
      exact absurd (hl _ (List.mem_cons_self _ _)) (by simp [isLineEvent])

/-- C5: at most one debounced health probe is ever armed per attempt (the
`healthCheckScheduled` guard is idempotent); on any pure stream history the
probe count is exactly one as soon as some line carries a readiness marker,
no matter how many markers follow on either stream; and a completing probe
on an unresolved attempt resolves the attempt (resolve is called) whether
the probe succeeded or failed, and never issues a rejection. -/
theorem C5_probe_arming_and_soft_success (es : List Event) (g : Globals)
    (a : Attempt) (probeOk : Bool) :
    (run initGlobals startAttempt es).2.probesScheduled ≤ 1
    ∧ ((∀ e ∈ es, isLineEvent e = true) →
        (run initGlobals startAttempt es).2.probesScheduled
          = if es.any isReadyMarkerLine = true then 1 else 0)
    ∧ (a.probeArmed = true → a.backendReady = false →
        (onProbeComplete probeOk g a).2.resolveCount = a.resolveCount + 1)
    ∧ (onProbeComplete probeOk g a).2.rejects = a.rejects := by
  refine ⟨?_, ?_, ?_, ?_⟩
  · have hI := attemptInv_run initGlobals startAttempt es attemptInv_startAttempt
    rw [hI.probes]
    split <;> omega
  · intro hl
    have h := run_lines_probes es initGlobals startAttempt hl (by decide) (by decide)
    simpa [startAttempt] using h
  · intro hpa hbr
    unfold onProbeComplete
    rw [if_neg (by simp [hpa] : ¬ ((!a.probeArmed) = true))]
    rw [if_pos (by simp [hbr] :
      (!({ a with probeArmed := false } : Attempt).backendReady) = true)]
    cases probeOk <;>
    · rw [resolveWithCleanup_eq g { a with probeArmed := false } (by simp [hbr])]
      simp
  · unfold onProbeComplete
    by_cases hpa : a.probeArmed = true
    · by_cases hbr : a.backendReady = true
      · simp [hpa, hbr]
      · have hbr2 : a.backendReady = false := by simpa using hbr
        have h2 := resolveWithCleanup_rejects g { a with probeArmed := false }
        cases probeOk <;> simpa [hpa, hbr2] using h2
    · have hpa2 : a.probeArmed = false := by simpa using hpa
      simp [hpa2]

/-- Witness for C5: one marker line on each stream still arms exactly one
probe, and its completion with a failed probe resolves the attempt. -/
theorem C5_probe_arming_and_soft_success_witness :
    (run initGlobals startAttempt
      [Event.stdoutLine "INFO: Uvicorn running on http://0.0.0.0:8765",
       Event.stderrLine "INFO: Uvicorn running on http://0.0.0.0:8765"]).2.probesScheduled = 1
    ∧ (onProbeComplete false initGlobals
        { startAttempt with probeArmed := true }).2.resolveCount
      = { startAttempt with probeArmed := true }.resolveCount + 1 := by
  constructor
  · have h := (C5_probe_arming_and_soft_success
      [Event.stdoutLine "INFO: Uvicorn running on http://0.0.0.0:8765",
       Event.stderrLine "INFO: Uvicorn running on http://0.0.0.0:8765"]
      initGlobals startAttempt false).2.1 (by decide)
    rw [h]
    decide
  · exact (C5_probe_arming_and_soft_success [] initGlobals
      { startAttempt with probeArmed := true } false).2.2.1 (by decide) (by decide)

theorem step_after_ready (g : Globals) (a : Attempt) (e : Event)
    (h : a.backendReady = true) :
    (step g a e).2.backendReady = true
    ∧ (step g a e).2.resolveCount = a.resolveCount
    ∧ (step g a e).2.rejects = a.rejects := by
  cases e with
  | stdoutLine out =>
    obtain ⟨_, hbr, hrc, hrj, _⟩ := onStdoutData_spec out g a
    exact ⟨by simp only [step]; rw [hbr]; exact h,
      by simp only [step]; exact hrc, by simp only [step]; exact hrj⟩
  | stderrLine out =>
    obtain ⟨_, hbr, hrc, hrj, _⟩ := onStderrData_spec out g a
    exact ⟨by simp only [step]; rw [hbr]; exact h,
      by simp only [step]; exact hrc, by simp only [step]; exact hrj⟩
  | probeComplete probeOk =>
    simp only [step]
    unfold onProbeComplete
    by_cases hpa : a.probeArmed = true
    · simp [hpa, h]
    · have hpa2 : a.probeArmed = false := by simpa using hpa
      simp [hpa2, h]
  | timeoutFire probeOk =>
    simp only [step]
    unfold onStartupTimeout
    by_cases hta : a.timeoutArmed = true
    · rw [if_neg (by simp [hta] : ¬ ((!a.timeoutArmed) = true))]
      rw [if_pos (by simp [h] :
        ({ a with timeoutArmed := false } : Attempt).backendReady = true)]
      simp [h]
    · have hta2 : a.timeoutArmed = false := by simpa using hta
      rw [if_pos (by simp [hta2] : (!a.timeoutArmed) = true)]
      simp [h]
  | processExit code =>
    simp only [step]
    unfold onExit
    by_cases hex : a.exited.isSome = true
    · simp [hex, h]
    · rw [if_neg hex]
      by_cases hnz : code ≠ some 0 ∧ code ≠ none
      · rw [if_pos hnz]
        rw [if_neg (by simp [h] :
          ¬ ((!({ a with exited := some code } : Attempt).backendReady) = true))]
        by_cases hgw : g.backendWasReady = true ∧ g.backendRestartCount < 1
        · rw [if_pos hgw]
          simp [h]
        · rw [if_neg hgw]
          simp [h]
      · rw [if_neg hnz]
        simp [h]

theorem run_after_ready (g : Globals) (a : Attempt) (es : List Event)
    (h : a.backendReady = true) :
    (run g a es).2.resolveCount = a.resolveCount
    ∧ (run g a es).2.rejects = a.rejects := by
  induction es generalizing g a with
  | nil => exact ⟨rfl, rfl⟩
  | cons e es ih =>
    simp only [run]
    obtain ⟨h1, h2, h3⟩ := step_after_ready g a e h
    obtain ⟨h4, h5⟩ := ih (step g a e).1 (step g a e).2 h1
    exact ⟨by rw [h4, h2], by rw [h5, h3]⟩

/-- C7 (amended): once an attempt has resolved Ready, no later event adds a
resolution call (the probe callback and the deadline handler are guarded by
the resolved flag, and the exit handler does not reject a ready attempt),
and every Ready resolution (`resolveWithCleanup`) clears the deadline timer
immediately.  The stated claim additionally asserts the timer is cleared on
the crash-before-ready rejection; that part fails — see the
counterexample, where the timer stays armed after the rejection and fires a
second resolution call. -/
theorem C7_cancellation (g : Globals) (a : Attempt) (es : List Event) :
    (a.backendReady = true →
      (run g a es).2.resolveCount = a.resolveCount
      ∧ (run g a es).2.rejects = a.rejects)
    ∧ (a.backendReady = false →
        (resolveWithCleanup g a).2.timeoutArmed = false
        ∧ (resolveWithCleanup g a).2.backendReady = true) := by
  constructor
  · intro h
    exact run_after_ready g a es h
  · intro h
    rw [resolveWithCleanup_eq g a h]
    exact ⟨rfl, rfl⟩

/-- Witness for C7: after a Ready resolution via the deadline path, a
late probe completion, a stray timer and a crash change nothing. -/
theorem C7_cancellation_witness :
    (run initGlobals (run initGlobals startAttempt [Event.timeoutFire true]).2
      [Event.probeComplete true, Event.timeoutFire false,
       Event.processExit (some 1)]).2.resolveCount
      = (run initGlobals startAttempt [Event.timeoutFire true]).2.resolveCount :=
  ((C7_cancellation initGlobals
    (run initGlobals startAttempt [Event.timeoutFire true]).2
    [Event.probeComplete true, Event.timeoutFire false,
     Event.processExit (some 1)]).1 (by decide)).1

/-- Counterexample to C7 as stated: the crash-before-ready rejection is a
non-timeout resolution, yet the deadline timer stays armed after it and
later fires a second resolution call. -/
theorem C7_counterexample :
    (run initGlobals startAttempt [Event.processExit (some 1)]).2.rejects.length = 1
    ∧ (run initGlobals startAttempt [Event.processExit (some 1)]).2.timeoutArmed = true
    ∧ resolutionCalls (run initGlobals startAttempt
        [Event.processExit (some 1), Event.timeoutFire true]).2 = 2 := by
  decide

theorem resolveWithCleanup_restartCount (g : Globals) (a : Attempt) :
    (resolveWithCleanup g a).1.backendRestartCount = g.backendRestartCount := by
  unfold resolveWithCleanup
  by_cases h : a.backendReady = true <;> simp [h]

theorem onProbeComplete_restartCount (probeOk : Bool) (g : Globals) (a : Attempt) :
    (onProbeComplete probeOk g a).1.backendRestartCount = g.backendRestartCount := by
  unfold onProbeComplete
  by_cases hpa : a.probeArmed = true
  · by_cases hbr : a.backendReady = true
    · simp [hpa, hbr]
    · have hbr2 : a.backendReady = false := by simpa using hbr
      have h2 := resolveWithCleanup_restartCount g { a with probeArmed := false }
      cases probeOk <;> simpa [hpa, hbr2] using h2
  · have hpa2 : a.probeArmed = false := by simpa using hpa
    simp [hpa2]

theorem onStartupTimeout_restartCount (probeOk : Bool) (g : Globals) (a : Attempt) :
    (onStartupTimeout probeOk g a).1.backendRestartCount = g.backendRestartCount := by
  unfold onStartupTimeout
  by_cases hta : a.timeoutArmed = true
  · rw [if_neg (by simp [hta] : ¬ ((!a.timeoutArmed) = true))]
    by_cases hbr : a.backendReady = true
    · rw [if_pos (by simp [hbr] :
        ({ a with timeoutArmed := false } : Attempt).backendReady = true)]
    · have hbr2 : a.backendReady = false := by simpa using hbr
      rw [if_neg (by simp [hbr2] :
        ¬ (({ a with timeoutArmed := false } : Attempt).backendReady = true))]
      by_cases hnull : exitCodeIsNull { a with timeoutArmed := false } = true
      · rw [if_pos hnull]
        have h2 := resolveWithCleanup_restartCount g { a with timeoutArmed := false }
        cases probeOk <;> simpa using h2
      · rw [if_neg hnull]
  · have hta2 : a.timeoutArmed = false := by simpa using hta
    rw [if_pos (by simp [hta2] : (!a.timeoutArmed) = true)]

theorem onExit_restartCount (code : Option Int) (g : Globals) (a : Attempt) :
    (onExit code g a).1.backendRestartCount = g.backendRestartCount
    ∨ (g.backendRestartCount < 1
       ∧ (onExit code g a).1.backendRestartCount = g.backendRestartCount + 1) := by
  unfold onExit
  by_cases hex : a.exited.isSome = true
  · left; simp [hex]
  · rw [if_neg hex]
    by_cases hnz : code ≠ some 0 ∧ code ≠ none
    · rw [if_pos hnz]
      by_cases hbr : a.backendReady = true
      · rw [if_neg (by simp [hbr] :
          ¬ ((!({ a with exited := some code } : Attempt).backendReady) = true))]
        by_cases hgw : g.backendWasReady = true ∧ g.backendRestartCount < 1
        · right
          rw [if_pos hgw]
          exact ⟨hgw.2, rfl⟩
        · left
          rw [if_neg hgw]
      · have hbr2 : a.backendReady = false := by simpa using hbr
        left
        rw [if_pos (by simp [hbr2] :
          (!({ a with exited := some code } : Attempt).backendReady) = true)]
    · left
      rw [if_neg hnz]

theorem sstep_restart_count (s : Globals × Attempt) (e : SEvent) :
    (sstep s e).1.backendRestartCount = s.1.backendRestartCount
    ∨ (s.1.backendRestartCount < 1
       ∧ (sstep s e).1.backendRestartCount = s.1.backendRestartCount + 1) := by
  cases e with
  | newAttempt => left; rfl
  | attemptEvent e =>
    cases e with
    | stdoutLine out =>
      left
      have := (onStdoutData_spec out s.1 s.2).1
      simp only [sstep, step]
      rw [this]
    | stderrLine out =>
      left
      have := (onStderrData_spec out s.1 s.2).1
      simp only [sstep, step]
      rw [this]
    | probeComplete probeOk =>
      left
      exact onProbeComplete_restartCount probeOk s.1 s.2
    | timeoutFire probeOk =>
      left
      exact onStartupTimeout_restartCount probeOk s.1 s.2
    | processExit code =>
      exact onExit_restartCount code s.1 s.2

/-- C2: over every sequence of session events (stream lines, probes,
timers, process exits and fresh `startBackend` calls) starting from a
state whose restart counter is within budget, `backendRestartCount` never
exceeds 1 and never decreases — in particular it is never reset by a
restart, so after the single automatic restart a further non-zero exit
leaves it at 1 and triggers no further restart. -/
theorem C2_restart_budget (s : Globals × Attempt) (tr : List SEvent)
    (h : s.1.backendRestartCount ≤ 1) :
    (srun s tr).1.backendRestartCount ≤ 1
    ∧ s.1.backendRestartCount ≤ (srun s tr).1.backendRestartCount := by
  induction tr generalizing s with
  | nil => exact ⟨h, le_refl _⟩
  | cons e tr ih =>
    simp only [srun]
    rcases sstep_restart_count s e with he | ⟨hlt, he⟩
    · obtain ⟨h1, h2⟩ := ih (sstep s e) (by rw [he]; exact h)
      rw [he] at h2
      exact ⟨h1, h2⟩
    · obtain ⟨h1, h2⟩ := ih (sstep s e) (by rw [he]; omega)
      rw [he] at h2
      exact ⟨h1, by omega⟩

/-- Witness for C2: a full session — ready, crash (restart used), second
attempt ready, second crash — ends with the counter still at most 1. -/
theorem C2_restart_budget_witness :
    (srun initSession
      [SEvent.attemptEvent (Event.stdoutLine "Uvicorn running on"),
       SEvent.attemptEvent (Event.probeComplete true),
       SEvent.attemptEvent (Event.processExit (some 1)),
       SEvent.newAttempt,
       SEvent.attemptEvent (Event.stdoutLine "Uvicorn running on"),
       SEvent.attemptEvent (Event.probeComplete true),
       SEvent.attemptEvent (Event.processExit (some 1))]).1.backendRestartCount ≤ 1 :=
  (C2_restart_budget initSession
    [SEvent.attemptEvent (Event.stdoutLine "Uvicorn running on"),
     SEvent.attemptEvent (Event.probeComplete true),
     SEvent.attemptEvent (Event.processExit (some 1)),
     SEvent.newAttempt,
     SEvent.attemptEvent (Event.stdoutLine "Uvicorn running on"),
     SEvent.attemptEvent (Event.probeComplete true),
     SEvent.attemptEvent (Event.processExit (some 1))] (by decide)).1

/-- C3 (amended): at a live process exit, an automatic restart is triggered
(the counter increments) if and only if the exit code is non-zero and
non-null AND the exiting attempt itself had resolved Ready
(`backendReady`) AND the sticky `backendWasReady` is set AND the budget is
unused.  The attempt-local `backendReady` conjunct is missing from the
claim as stated and is not implied by `backendWasReady` (see the
counterexample).  The rest of the claim holds: a non-zero exit before the
attempt resolved Ready rejects fatally with the aggregated captured output
of both streams and changes no supervisor state, and a zero or null exit
code changes no supervisor state and rejects nothing. -/
theorem C3_restart_characterization (g : Globals) (a : Attempt)
    (code : Option Int) (h : a.exited = none) :
    ((onExit code g a).1.backendRestartCount = g.backendRestartCount + 1 ↔
      ((code ≠ some 0 ∧ code ≠ none) ∧ a.backendReady = true
        ∧ g.backendWasReady = true ∧ g.backendRestartCount < 1))
    ∧ ((code ≠ some 0 ∧ code ≠ none) → a.backendReady = false →
        (onExit code g a).1 = g
        ∧ (onExit code g a).2.rejects = a.rejects ++
            [RejectReason.crashBeforeReady code a.stdoutOutput a.errorOutput])
    ∧ ((code = some 0 ∨ code = none) →
        (onExit code g a).1 = g ∧ (onExit code g a).2.rejects = a.rejects) := by
  have hex : ¬ (a.exited.isSome = true) := by rw [h]; simp
  unfold onExit
  rw [if_neg hex]
  by_cases hnz : code ≠ some 0 ∧ code ≠ none
  · rw [if_pos hnz]
    by_cases hbr : a.backendReady = true
    · rw [if_neg (by simp [hbr] :
        ¬ ((!({ a with exited := some code } : Attempt).backendReady) = true))]
      by_cases hgw : g.backendWasReady = true ∧ g.backendRestartCount < 1
      · rw [if_pos hgw]
        refine ⟨?_, ?_, ?_⟩
        · exact ⟨fun _ => ⟨hnz, hbr, hgw.1, hgw.2⟩, fun _ => rfl⟩
        · intro _ hbrf
          rw [hbr] at hbrf
          cases hbrf
        · rintro (hz | hz) <;> exact absurd hz (by tauto)
      · rw [if_neg hgw]
        refine ⟨?_, ?_, ?_⟩
        · constructor
          · intro habs
            exact absurd habs (by simp)
          · rintro ⟨_, _, hw, hc⟩
            exact absurd ⟨hw, hc⟩ hgw
        · intro _ hbrf
          rw [hbr] at hbrf
          cases hbrf
        · rintro (hz | hz) <;> exact absurd hz (by tauto)
    · have hbr2 : a.backendReady = false := by simpa using hbr
      rw [if_pos (by simp [hbr2] :
        (!({ a with exited := some code } : Attempt).backendReady) = true)]
      refine ⟨?_, ?_, ?_⟩
      · constructor
        · intro habs
          simp at habs
        · rintro ⟨_, hb, _⟩
          rw [hbr2] at hb
          cases hb
      · intro _ _
        exact ⟨rfl, by simp⟩
      · rintro (hz | hz) <;> exact absurd hz (by tauto)
  · rw [if_neg hnz]
    refine ⟨?_, ?_, ?_⟩
    · constructor
      · intro habs
        simp at habs
      · rintro ⟨hc, _⟩
        exact absurd hc hnz
    · intro hc _
      exact absurd hc hnz
    · intro _
      exact ⟨rfl, by simp⟩

/-- Witness for C3: a ready first attempt with the budget unused, exiting
with code 1, triggers exactly the increment. -/
theorem C3_restart_characterization_witness :
    (onExit (some 1) (run initGlobals startAttempt [Event.timeoutFire true]).1
      (run initGlobals startAttempt [Event.timeoutFire true]).2).1.backendRestartCount
      = (run initGlobals startAttempt [Event.timeoutFire true]).1.backendRestartCount + 1 :=
  ((C3_restart_characterization
    (run initGlobals startAttempt [Event.timeoutFire true]).1
    (run initGlobals startAttempt [Event.timeoutFire true]).2
    (some 1) (by decide)).1).mpr
    ⟨by decide, by decide, by decide, by decide⟩

/-- Counterexample to C3 as stated: after a first attempt resolved Ready
(`backendWasReady = true`), a clean kill and a forced re-entry into
`startBackend` (`restartsUsed` still 0), the fresh attempt's child exits
with code 1 before readiness.  The claim's condition — non-zero code,
`backendWasReady` true, budget unused — holds, yet no restart is
triggered: the handler rejects fatally instead because the attempt-local
resolved flag is false. -/
theorem C3_counterexample :
    (let s4 := srun initSession
      [SEvent.attemptEvent (Event.stdoutLine "Uvicorn running on"),
       SEvent.attemptEvent (Event.probeComplete true),
       SEvent.attemptEvent (Event.processExit none),
       SEvent.newAttempt];
     s4.1.backendWasReady = true
     ∧ s4.1.backendRestartCount = 0
     ∧ s4.2.backendReady = false
     ∧ (sstep s4 (SEvent.attemptEvent (Event.processExit (some 1)))).1.backendRestartCount = 0
     ∧ (sstep s4 (SEvent.attemptEvent (Event.processExit (some 1)))).2.rejects.length = 1) := by
  decide

/-- C4 (amended): when the startup deadline fires on an unresolved
attempt, behavior splits on the handler's liveness test
(`exitCode === null`): if the child has not exited — or exited on a
signal, leaving a null exit code — one last-chance probe runs and the
attempt resolves Ready whether the probe succeeds or fails (no rejection
via this path); if the child has exited with a non-null code, the attempt
rejects with diagnostics carrying that exit code, the two diagnostic flags
and the last 50 captured chunks of each stream.  The claim as stated says
every already-exited child yields `Failed`; the signal-exit case instead
resolves Ready (see the counterexample). -/
theorem C4_deadline_behavior (g : Globals) (a : Attempt) (probeOk : Bool)
    (hta : a.timeoutArmed = true) (hbr : a.backendReady = false) :
    (exitCodeIsNull a = true →
      (onStartupTimeout probeOk g a).2.resolveCount = a.resolveCount + 1
      ∧ (onStartupTimeout probeOk g a).2.rejects = a.rejects)
    ∧ (∀ c : Int, a.exited = some (some c) →
        (onStartupTimeout probeOk g a).2.resolveCount = a.resolveCount
        ∧ (onStartupTimeout probeOk g a).2.rejects = a.rejects ++
            [RejectReason.startupTimeout (some c) a.sawStartupBegin a.sawMigrations
              (sliceLast 50 a.stdoutOutput) (sliceLast 50 a.errorOutput)]) := by
  unfold onStartupTimeout
  rw [if_neg (by simp [hta] : ¬ ((!a.timeoutArmed) = true))]
  rw [if_neg (by simp [hbr] :
    ¬ (({ a with timeoutArmed := false } : Attempt).backendReady = true))]
  constructor
  · intro hnull
    have hnull2 : exitCodeIsNull { a with timeoutArmed := false } = true := by
      rw [show exitCodeIsNull { a with timeoutArmed := false }
            = exitCodeIsNull a from rfl]
      exact hnull
    rw [if_pos hnull2]
    rw [resolveWithCleanup_eq g { a with timeoutArmed := false } (by simp [hbr])]
    cases probeOk <;> exact ⟨rfl, rfl⟩
  · intro c hc
    rw [if_neg (by simp [exitCodeIsNull, hc] :
      ¬ (exitCodeIsNull { a with timeoutArmed := false } = true))]
    constructor
    · rfl
    · simp [hc]

/-- Witness for C4: on a still-running child the firing deadline with a
failed probe resolves; on a child that exited with code 2 it rejects with
the tail diagnostics. -/
theorem C4_deadline_behavior_witness :
    (onStartupTimeout false initGlobals startAttempt).2.resolveCount
      = startAttempt.resolveCount + 1
    ∧ (onStartupTimeout false initGlobals
        { startAttempt with exited := some (some 2) }).2.rejects
      = startAttempt.rejects ++
          [RejectReason.startupTimeout (some 2) false false [] []] := by
  constructor
  · exact ((C4_deadline_behavior initGlobals startAttempt false
      (by decide) (by decide)).1 (by decide)).1
  · exact ((C4_deadline_behavior initGlobals
      { startAttempt with exited := some (some 2) } false
      (by decide) (by decide)).2 2 (by decide)).2

/-- Counterexample to C4 as stated: the child exits on a signal (null exit
code) before the deadline; the deadline fires on the exited child, yet the
attempt resolves Ready with no rejection, because the handler's liveness
check reads `exitCode === null`. -/
theorem C4_counterexample :
    (run initGlobals startAttempt [Event.processExit none]).2.exited = some none
    ∧ (run initGlobals startAttempt
        [Event.processExit none, Event.timeoutFire false]).2.resolveCount = 1
    ∧ (run initGlobals startAttempt
        [Event.processExit none, Event.timeoutFire false]).2.rejects = [] := by
  decide

theorem find?_key_filter_none (o : JsObj) (k : String) :
    (o.filter (fun p => !(p.1 == k))).find? (fun p => p.1 == k) = none := by
  rw [List.find?_eq_none]
  intro q hq
  have h := List.of_mem_filter hq
  simp at h ⊢
  exact h

theorem stripObj_append (o1 o2 : JsObj) :
    stripObj (o1 ++ o2) = stripObj o1 ++ stripObj o2 := by
  simp [stripObj, List.filterMap_append]

theorem stripObj_cons_none (p : String × Option String) (o : JsObj)
    (hv : p.2 = none) : stripObj (p :: o) = stripObj o := by
  simp [stripObj, List.filterMap_cons, hv]

theorem stripObj_cons_some (p : String × Option String) (o : JsObj) (x : String)
    (hv : p.2 = some x) : stripObj (p :: o) = (p.1, x) :: stripObj o := by
  simp [stripObj, List.filterMap_cons, hv]

theorem find?_key_stripObj_none (o : JsObj) (k : String)
    (h : ∀ p ∈ o, ¬ (p.1 = k)) :
    (stripObj o).find? (fun p => p.1 == k) = none := by
  rw [List.find?_eq_none]
  intro q hq
  simp only [stripObj, List.mem_filterMap] at hq
  obtain ⟨p, hp, hf⟩ := hq
  cases hv : p.2 with
  | none =>
    rw [hv] at hf
    simp at hf
  | some x =>
    rw [hv] at hf
    simp only [Option.map_some', Option.some.injEq] at hf
    rw [← hf]
    simp [h p hp]

theorem find?_key_filter_ne (o : JsObj) (k k2 : String) (h : ¬ k = k2) :
    (o.filter (fun p => !(p.1 == k2))).find? (fun p => p.1 == k)
      = o.find? (fun p => p.1 == k) := by
  induction o with
  | nil => rfl
  | cons p o ih =>
    by_cases h1 : p.1 = k2
    · have e1 : (p.1 == k2) = true := by simp [h1]
      have e2 : (p.1 == k) = false := by
        refine beq_eq_false_iff_ne.mpr ?_
        rw [h1]
        intro hh
        exact h hh.symm
      rw [List.filter_cons, if_neg (by simp [e1])]
      rw [ih]
      rw [show (p :: o).find? (fun p => p.1 == k) = o.find? (fun p => p.1 == k)
        from by simp [List.find?_cons, e2]]
    · have e1 : (p.1 == k2) = false := beq_eq_false_iff_ne.mpr h1
      rw [List.filter_cons, if_pos (by simp [e1])]
      by_cases h2 : p.1 = k
      · have e2 : (p.1 == k) = true := by simp [h2]
        rw [List.find?_cons, List.find?_cons, e2]
      · have e2 : (p.1 == k) = false := beq_eq_false_iff_ne.mpr h2
        rw [List.find?_cons, List.find?_cons, e2]
        simpa using ih

theorem find?_key_stripObj_filter_ne (o : JsObj) (k k2 : String) (h : ¬ k = k2) :
    (stripObj (o.filter (fun p => !(p.1 == k2)))).find? (fun p => p.1 == k)
      = (stripObj o).find? (fun p => p.1 == k) := by
  induction o with
  | nil => rfl
  | cons p o ih =>
    by_cases h1 : p.1 = k2
    · have e1 : (p.1 == k2) = true := by simp [h1]
      have e2 : (p.1 == k) = false := by
        refine beq_eq_false_iff_ne.mpr ?_
        rw [h1]
        intro hh
        exact h hh.symm
      rw [List.filter_cons, if_neg (by simp [e1])]
      rw [ih]
      cases hv : p.2 with
      | none => rw [stripObj_cons_none p o hv]
      | some x =>
        rw [stripObj_cons_some p o x hv]
        rw [show ((p.1, x) :: stripObj o).find? (fun p => p.1 == k)
            = (stripObj o).find? (fun p => p.1 == k)
          from by simp [List.find?_cons, e2]]
    · have e1 : (p.1 == k2) = false := beq_eq_false_iff_ne.mpr h1
      rw [List.filter_cons, if_pos (by simp [e1])]
      cases hv : p.2 with
      | none =>
        rw [stripObj_cons_none p _ hv, stripObj_cons_none p o hv]
        exact ih
      | some x =>
        rw [stripObj_cons_some p _ x hv, stripObj_cons_some p o x hv]
        by_cases h2 : p.1 = k
        · have e2 : (p.1 == k) = true := by simp [h2]
          rw [List.find?_cons, List.find?_cons, e2]
        · have e2 : (p.1 == k) = false := beq_eq_false_iff_ne.mpr h2
          rw [List.find?_cons, List.find?_cons, e2]
          simpa using ih

theorem objGet_objSet_self (o : JsObj) (k : String) (v : Option String) :
    objGet (objSet o k v) k = some v := by
  unfold objGet objSet
  rw [List.find?_append, find?_key_filter_none]
  simp [List.find?]

theorem objGet_objSet_ne (o : JsObj) (k k2 : String) (v : Option String)
    (h : ¬ k = k2) :
    objGet (objSet o k2 v) k = objGet o k := by
  unfold objGet objSet
  rw [List.find?_append, find?_key_filter_ne o k k2 h]
  have e2 : (k2 == k) = false := by
    refine beq_eq_false_iff_ne.mpr ?_
    intro hh
    exact h hh.symm
  have htail : ([((k2 : String), v)].find? (fun p => p.1 == k)) = none := by
    simp [List.find?_cons, e2]
  rw [htail, Option.or_none]

theorem envLookup_stripObj_objSet_self (o : JsObj) (k : String) (v : Option String) :
    envLookup (stripObj (objSet o k v)) k = v := by
  unfold envLookup objSet
  rw [stripObj_append, List.find?_append,
    find?_key_stripObj_none _ _ (fun p hp => by
      have := List.of_mem_filter hp
      simpa using this)]
  cases v with
  | none => simp [stripObj]
  | some x => simp [stripObj, List.find?]

theorem envLookup_stripObj_objSet_ne (o : JsObj) (k k2 : String) (v : Option String)
    (h : ¬ k = k2) :
    envLookup (stripObj (objSet o k2 v)) k = envLookup (stripObj o) k := by
  unfold envLookup objSet
  rw [stripObj_append, List.find?_append, find?_key_stripObj_filter_ne o k k2 h]
  have e2 : (k2 == k) = false := by
    refine beq_eq_false_iff_ne.mpr ?_
    intro hh
    exact h hh.symm
  have htail : (stripObj [((k2 : String), v)]).find? (fun p => p.1 == k) = none := by
    cases v with
    | none => simp [stripObj]
    | some x =>
      rw [show stripObj [((k2 : String), some x)] = [(k2, x)] from by simp [stripObj]]
      simp [List.find?_cons, e2]
  rw [htail, Option.or_none]

theorem objGet_procEnv_base_defined (procEnv : List (String × String)) (k : String) :
    ¬ (objGet (procEnv.map (fun p => (p.1, some p.2))) k = some none) := by
  unfold objGet
  intro hc
  cases hf : (procEnv.map (fun p => (p.1, some p.2))).find? (fun p => p.1 == k) with
  | none =>
    rw [hf] at hc
    simp at hc
  | some q =>
    rw [hf] at hc
    simp at hc
    have hmem := List.mem_of_find?_eq_some hf
    rw [List.mem_map] at hmem
    obtain ⟨p, _, hp⟩ := hmem
    rw [← hp] at hc
    simp at hc

/-- C9 (amended): in the environment actually passed to `spawn`, any
override whose computed value is `undefined` is omitted entirely, never
passed empty — in particular `DATABASE_PATH` and `UPLOAD_DIR` are absent in
development mode and present with their computed paths in packaged mode.
The log-directory override `BILLTRIM_LOG_DIR`, however, is injected
unconditionally, in development mode as well as packaged mode; the claim's
statement that all three data/storage overrides are omitted in development
mode fails for it (see the counterexample). -/
theorem C9_spawn_env (procEnv : List (String × String))
    (pathEnv backendPath dbPath uploadsDir logsDir : String) :
    envLookup (spawnEnv procEnv true pathEnv backendPath dbPath uploadsDir logsDir)
      "DATABASE_PATH" = none
    ∧ envLookup (spawnEnv procEnv true pathEnv backendPath dbPath uploadsDir logsDir)
      "UPLOAD_DIR" = none
    ∧ envLookup (spawnEnv procEnv false pathEnv backendPath dbPath uploadsDir logsDir)
      "DATABASE_PATH" = some dbPath
    ∧ envLookup (spawnEnv procEnv false pathEnv backendPath dbPath uploadsDir logsDir)
      "UPLOAD_DIR" = some uploadsDir
    ∧ envLookup (spawnEnv procEnv true pathEnv backendPath dbPath uploadsDir logsDir)
      "BILLTRIM_LOG_DIR" = some logsDir
    ∧ envLookup (spawnEnv procEnv false pathEnv backendPath dbPath uploadsDir logsDir)
      "BILLTRIM_LOG_DIR" = some logsDir
    ∧ (∀ (isDev : Bool) (k : String),
        objGet (buildBackendEnv procEnv isDev pathEnv backendPath dbPath uploadsDir
          logsDir) k = some none →
        envLookup (spawnEnv procEnv isDev pathEnv backendPath dbPath uploadsDir
          logsDir) k = none) := by
  refine ⟨?_, ?_, ?_, ?_, ?_, ?_, ?_⟩
  · unfold spawnEnv buildBackendEnv
    rw [envLookup_stripObj_objSet_ne _ _ _ _ (by decide),
      envLookup_stripObj_objSet_ne _ _ _ _ (by decide),
      envLookup_stripObj_objSet_self]
    simp
  · unfold spawnEnv buildBackendEnv
    rw [envLookup_stripObj_objSet_ne _ _ _ _ (by decide),
      envLookup_stripObj_objSet_self]
    simp
  · unfold spawnEnv buildBackendEnv
    rw [envLookup_stripObj_objSet_ne _ _ _ _ (by decide),
      envLookup_stripObj_objSet_ne _ _ _ _ (by decide),
      envLookup_stripObj_objSet_self]
    simp
  · unfold spawnEnv buildBackendEnv
    rw [envLookup_stripObj_objSet_ne _ _ _ _ (by decide),
      envLookup_stripObj_objSet_self]
    simp
  · unfold spawnEnv buildBackendEnv
    rw [envLookup_stripObj_objSet_self]
  · unfold spawnEnv buildBackendEnv
    rw [envLookup_stripObj_objSet_self]
  · intro isDev k hk
    unfold buildBackendEnv at hk
    unfold spawnEnv buildBackendEnv
    by_cases h6 : k = "BILLTRIM_LOG_DIR"
    · subst h6
      rw [objGet_objSet_self] at hk
      simp at hk
    · rw [objGet_objSet_ne _ _ _ _ h6] at hk
      rw [envLookup_stripObj_objSet_ne _ _ _ _ h6]
      by_cases h5 : k = "UPLOAD_DIR"
      · subst h5
        rw [objGet_objSet_self] at hk
        have hdev : isDev = true := by
          cases hiv : isDev
          · rw [hiv] at hk
            simp at hk
          · rfl
        rw [envLookup_stripObj_objSet_self, hdev]
        simp
      · rw [objGet_objSet_ne _ _ _ _ h5] at hk
        rw [envLookup_stripObj_objSet_ne _ _ _ _ h5]
        by_cases h4 : k = "DATABASE_PATH"
        · subst h4
          rw [objGet_objSet_self] at hk
          have hdev : isDev = true := by
            cases hiv : isDev
            · rw [hiv] at hk
              simp at hk
            · rfl
          rw [envLookup_stripObj_objSet_self, hdev]
          simp
        · rw [objGet_objSet_ne _ _ _ _ h4] at hk
          rw [envLookup_stripObj_objSet_ne _ _ _ _ h4]
          by_cases h3 : k = "PYTHONUNBUFFERED"
          · subst h3
            rw [objGet_objSet_self] at hk
            simp at hk
          · rw [objGet_objSet_ne _ _ _ _ h3] at hk
            rw [envLookup_stripObj_objSet_ne _ _ _ _ h3]
            by_cases h2 : k = "PYTHONPATH"
            · subst h2
              rw [objGet_objSet_self] at hk
              simp at hk
            · rw [objGet_objSet_ne _ _ _ _ h2] at hk
              rw [envLookup_stripObj_objSet_ne _ _ _ _ h2]
              by_cases h1 : k = "PATH"
              · subst h1
                rw [objGet_objSet_self] at hk
                simp at hk
              · rw [objGet_objSet_ne _ _ _ _ h1] at hk
                exact absurd hk (objGet_procEnv_base_defined procEnv k)

/-- Witness for C9: with a one-entry parent environment, the dev-mode
database override is absent both by direct lookup and via the general
undefined-omission clause. -/
theorem C9_spawn_env_witness :
    envLookup (spawnEnv [("HOME", "/root")] true "p" "bp" "db" "up" "lg")
      "DATABASE_PATH" = none
    ∧ envLookup (spawnEnv [("HOME", "/root")] true "p" "bp" "db" "up" "lg")
      "UPLOAD_DIR" = none := by
  constructor
  · exact (C9_spawn_env [("HOME", "/root")] "p" "bp" "db" "up" "lg").2.2.2.2.2.2
      true "DATABASE_PATH" (by decide)
  · exact (C9_spawn_env [("HOME", "/root")] "p" "bp" "db" "up" "lg").2.1

/-- Counterexample to C9 as stated: in development mode the spawned
environment still contains the log-directory override. -/
theorem C9_counterexample :
    envLookup (spawnEnv [] true "path" "backend" "db" "uploads" "logs")
      "BILLTRIM_LOG_DIR" = some "logs" := by
  decide
